import Mathlib

/- Shallow embedding of the year-progress wallpaper endpoints
   (src/app/api/days/route.tsx, src/app/api/var-4/route.tsx,
   src/unnamed/part_000).

   Modelling conventions for the JavaScript host arithmetic:
   - JS number arithmetic on the values occurring here is modelled by exact
     rational arithmetic (ℚ); every constant in the source (0.18, 0.72, ...)
     is an exact decimal, and the quantities compared stay far from any
     float64 rounding boundary.
   - `Math.floor(x / n)` for a positive integer `n` on integer inputs is
     `Int` division `/` (Lean's `Int` division is Euclidean, which for a
     positive divisor is exactly floor division).
   - `Math.round x` is `⌊x + 1/2⌋` (JS rounds half toward +∞).
   - JS `%` on integers is the truncating remainder `Int.tmod`.
   - The host `Date.UTC(year, monthIndex, day)` is modelled after ECMA-262
     MakeDay/MakeDate: the proleptic-Gregorian day count since 1970-01-01
     times 86400000 ms.
   - A named timezone is modelled as a UTC-offset function
     `tz : instant in epoch ms → offset in ms`. -/

/-- JS `Math.round x`: `⌊x + 1/2⌋`, rounding half toward positive infinity. -/
def jsRound (q : ℚ) : Int := ⌊q + 1 / 2⌋

namespace Calendar

/-- Proleptic-Gregorian leap-year rule, used to model the host `Date` API
(the same formula the repository's own `isLeapYear` uses). -/
def gregLeap (y : Int) : Bool :=
  (Int.tmod y 4 == 0 && Int.tmod y 100 != 0) || Int.tmod y 400 == 0

/-- Month lengths of year `y`, January first. -/
def monthLen (y : Int) : List Int :=
  [31, if gregLeap y then 29 else 28, 31, 30, 31, 30, 31, 31, 30, 31, 30, 31]

/-- Days of year `y` strictly before month `m` (1-based month). -/
def daysBeforeMonth (y : Int) (m : Nat) : Int := ((monthLen y).take (m - 1)).sum

/-- 1-based ordinal of the calendar date `y-m-d` within its year. -/
def ordinalDate (y : Int) (m : Nat) (d : Int) : Int := daysBeforeMonth y m + d

/-- Days from 1970-01-01 to `y-m-d` in the proleptic Gregorian calendar, as
in ECMA-262 MakeDay (the model of the host `Date.UTC`): whole years since
1970 with the accumulated leap days, plus the day within the year. -/
def epochDay (y : Int) (m : Nat) (d : Int) : Int :=
  365 * (y - 1970) + ((y - 1) / 4 - (y - 1) / 100 + (y - 1) / 400 - 477)
    + daysBeforeMonth y m + (d - 1)

/-- Model of the host `Date.UTC(year, monthIndex, day)`: epoch milliseconds
of UTC midnight of the given date; `monthIndex` is 0-based as in JS. -/
def dateUTC (y : Int) (monthIndex : Nat) (d : Int) : Int :=
  epochDay y (monthIndex + 1) d * 86400000

/-- The epoch day of the local calendar date holding instant `t` (epoch ms)
under the timezone `tz` (a UTC-offset function in ms). -/
def localEpochDay (tz : Int → Int) (t : Int) : Int := (t + tz t) / 86400000

/-- 1-based ordinal, within year `y`, of the local calendar date holding
instant `t` under timezone `tz` (meaningful when that date lies in `y`). -/
def localOrdinal (tz : Int → Int) (t : Int) (y : Int) : Int :=
  localEpochDay tz t - epochDay y 1 1 + 1

/-- UTC-offset function of America/New_York around early 2024: EST (−5 h)
before the daylight-saving transition at 2024-03-10T07:00Z, EDT (−4 h)
after.  A concrete daylight-saving timezone, used as a test vector for the
raw instant-minus-midnight day-of-year formula. -/
def nyOffset2024 (t : Int) : Int :=
  if t < 1710054000000 then -18000000 else -14400000

end Calendar

namespace Params

/-- A decimal digit. -/
def isDigit (c : Char) : Bool := '0' ≤ c && c ≤ '9'

/-- Value of the longest leading run of decimal digits; `none` if there is
none (the NaN case of `parseInt`). -/
def leadingDigits (cs : List Char) : Option Nat :=
  let ds := cs.takeWhile isDigit
  if ds.isEmpty then none
  else some (ds.foldl (fun a c => a * 10 + (c.toNat - 48)) 0)

/-- Model of JS `parseInt(s)` on its decimal path (no `0x` prefix occurs in
this API's inputs): skip leading whitespace, read one optional sign, then
the longest prefix of decimal digits; NaN (`none`) when that prefix is
empty. -/
def parseIntJS (s : String) : Option Int :=
  let cs := s.toList.dropWhile fun c => c == ' ' || c == '\t' || c == '\n' || c == '\r'
  match cs with
  | '-' :: rest => (leadingDigits rest).map fun n => -(n : Int)
  | '+' :: rest => (leadingDigits rest).map fun n => (n : Int)
  | _ => (leadingDigits cs).map fun n => (n : Int)

/-- JS `x || dflt` on a nullable string: `null` and the empty string are
falsy, any other string is kept. -/
def jsOrElse (q : Option String) (dflt : String) : String :=
  match q with
  | none => dflt
  | some s => if s.isEmpty then dflt else s

/-- `const height = parseInt(searchParams.get('height') || '2532')`. -/
def heightParam (q : Option String) : Option Int := parseIntJS (jsOrElse q "2532")

/-- `const width = parseInt(searchParams.get('width') || '1170')`. -/
def widthParam (q : Option String) : Option Int := parseIntJS (jsOrElse q "1170")

end Params

namespace Days

/- src/app/api/days/route.tsx, first document: local-timezone flat 15×24 dot
grid. -/

/-- `const isLeapYear = (year) => (year % 4 === 0 && year % 100 !== 0) || (year % 400 === 0)`. -/
def isLeapYear (y : Int) : Bool :=
  (Int.tmod y 4 == 0 && Int.tmod y 100 != 0) || Int.tmod y 400 == 0

/-- `const totalDays = isLeapYear(now.getFullYear()) ? 366 : 365`. -/
def totalDays (y : Int) : Int := if isLeapYear y then 366 else 365

/-- `const dayOfYear = Math.floor((now.getTime() - startOfYear.getTime()) / (1000*60*60*24)) + 1`:
raw subtraction of the `new Date(year, 0, 1)` local-midnight instant from
the current instant, both in epoch milliseconds. -/
def dayOfYear (nowMs startOfYearMs : Int) : Int :=
  (nowMs - startOfYearMs) / 86400000 + 1

/-- `const daysLeft = totalDays - dayOfYear`. -/
def daysLeft (y doy : Int) : Int := totalDays y - doy

/-- `const percentage = Math.round((dayOfYear / totalDays) * 100)`. -/
def percentage (doy td : Int) : Int := jsRound ((doy : ℚ) / (td : ℚ) * 100)

/-- `const cols = 15`. -/
def cols : Nat := 15

/-- `const rows = 24`. -/
def gridRows : Nat := 24

/-- `const extraDots = Math.max(totalDays - cols * rows, 0)`; on `Nat`,
truncating subtraction is exactly this clamped difference. -/
def extraDots (td : Nat) : Nat := td - cols * gridRows

/-- `const totalRows = rows + (extraDots > 0 ? 1 : 0)`. -/
def totalRows (td : Nat) : Nat := gridRows + (if 0 < extraDots td then 1 else 0)

/-- The color the `dots` array assigns to `dayNumber`: past days white,
the current day orange, future days dark gray. -/
def dotColor (dayNumber doy : Int) : String :=
  if dayNumber < doy then "#ffffff"
  else if dayNumber = doy then "#ff8c00"
  else "#333333"

/-- `const dots = Array.from({length: totalDays}, (_, i) => ...)` with
`dayNumber = i + 1`. -/
def dots (doy : Int) (td : Nat) : List String :=
  (List.range td).map fun (i : Nat) => dotColor ((i : Int) + 1) doy

/-- The dots placed in grid row `r`: the inner loop pushes `dots[r*cols+c]`
for `c < (r < rows ? cols : extraDots)` whenever `r*cols + c < totalDays`. -/
def rowDots (l : List String) (td r : Nat) : List String :=
  (List.range (if r < gridRows then cols else extraDots td)).filterMap fun c =>
    if r * cols + c < td then some (l.getD (r * cols + c) "") else none

/-- The `dotRows` loop: one row of dots per `r < totalRows`. -/
def dotRows (l : List String) (td : Nat) : List (List String) :=
  (List.range (totalRows td)).map fun r => rowDots l td r

end Days

namespace Canvas

/- src/unnamed/part_000, first document: the node-canvas variant with the
same local-timezone day arithmetic, drawing dots at explicit coordinates. -/

/-- Same leap-year formula as every other variant. -/
def isLeapYear (y : Int) : Bool :=
  (Int.tmod y 4 == 0 && Int.tmod y 100 != 0) || Int.tmod y 400 == 0

/-- `const totalDays = isLeapYear(now.getFullYear()) ? 366 : 365`. -/
def totalDays (y : Int) : Int := if isLeapYear y then 366 else 365

/-- Same raw instant-minus-local-midnight formula as the days variant. -/
def dayOfYear (nowMs startOfYearMs : Int) : Int :=
  (nowMs - startOfYearMs) / 86400000 + 1

/-- `const topPadding = height * 0.18`. -/
def topPadding (h : ℚ) : ℚ := h * 0.18

/-- `const bottomTextSpace = height * 0.08`. -/
def bottomTextSpace (h : ℚ) : ℚ := h * 0.08

/-- `const sideMargin = width * 0.06`. -/
def sideMargin (w : ℚ) : ℚ := w * 0.06

/-- `const availableWidth = width - (sideMargin * 2)`. -/
def availableWidth (w : ℚ) : ℚ := w - sideMargin w * 2

/-- `const availableHeight = height - topPadding - bottomTextSpace`. -/
def availableHeight (h : ℚ) : ℚ := h - topPadding h - bottomTextSpace h

/-- `const spacingX = (availableWidth / (cols - 1)) * spacingScale` with
`cols = 15`, `spacingScale = 0.8`. -/
def spacingX (w : ℚ) : ℚ := availableWidth w / (15 - 1) * 0.8

/-- `const spacingY = (availableHeight / (Math.max(totalRows - 1, 1))) * spacingScale`. -/
def spacingY (h : ℚ) (totalRows : Nat) : ℚ :=
  availableHeight h / ((max (totalRows - 1) 1 : Nat) : ℚ) * 0.8

/-- `const dotRadius = Math.min(spacingX, spacingY) * 0.35`. -/
def dotRadius (w h : ℚ) (totalRows : Nat) : ℚ :=
  min (spacingX w) (spacingY h totalRows) * 0.35

/-- `const gridWidth = (cols - 1) * spacingX` — the span between the first
and last dot centers of a row; note there is no dot-size term. -/
def gridWidth (w : ℚ) : ℚ := (15 - 1) * spacingX w

/-- `const startX = (width - gridWidth) / 2`. -/
def startX (w : ℚ) : ℚ := (w - gridWidth w) / 2

/-- The grid-width formula as the spec words it, for comparison with the
code's `gridWidth`: `(columns - 1) * spacingX + cellSize`, the cell size
taken as the dot diameter `2 * dotRadius`. -/
def specGridWidth (w h : ℚ) (totalRows : Nat) : ℚ :=
  (15 - 1) * spacingX w + 2 * dotRadius w h totalRows

/-- Same spec-side formula with the cell size read as the dot radius. -/
def specGridWidthR (w h : ℚ) (totalRows : Nat) : ℚ :=
  (15 - 1) * spacingX w + dotRadius w h totalRows

end Canvas

namespace Var4

/- src/app/api/var-4/route.tsx: the AEST-pinned flat grid with a progress
bar. -/

/-- Same leap-year formula as every other variant. -/
def isLeapYear (y : Int) : Bool :=
  (Int.tmod y 4 == 0 && Int.tmod y 100 != 0) || Int.tmod y 400 == 0

/-- `const totalDays = isLeapYear(year) ? 366 : 365`. -/
def totalDays (y : Int) : Int := if isLeapYear y then 366 else 365

/-- `startOfYearAEST = Date.UTC(year, 0, 1)`, `nowAEST = Date.UTC(year, month, date)`
with the formatter's 1-based month decremented to JS's 0-based index, and
`dayOfYear = Math.floor((nowAEST - startOfYearAEST) / 86400000) + 1`. -/
def dayOfYear (y : Int) (m : Nat) (d : Int) : Int :=
  (Calendar.dateUTC y (m - 1) d - Calendar.dateUTC y 0 1) / 86400000 + 1

/-- `const daysLeft = totalDays - dayOfYear`. -/
def daysLeft (y doy : Int) : Int := totalDays y - doy

/-- `const percentage = Math.round((dayOfYear / totalDays) * 100)`. -/
def percentage (doy td : Int) : Int := jsRound ((doy : ℚ) / (td : ℚ) * 100)

/-- `const progressBarWidth = Math.floor(gridWidth * 0.5)`. -/
def progressBarWidth (gw : ℚ) : Int := ⌊gw * 0.5⌋

/-- `const progressFillWidth = Math.round((progressBarWidth * percentage) / 100)`. -/
def progressFillWidth (pbw p : Int) : Int := jsRound ((pbw : ℚ) * (p : ℚ) / 100)

/-- `const progressLabelOffset = Math.max(0, Math.min(progressBarWidth - fontSize * 1.2, progressFillWidth - fontSize * 0.6))`. -/
def progressLabelOffset (pbw fill fs : Int) : ℚ :=
  max 0 (min ((pbw : ℚ) - (fs : ℚ) * 1.2) ((fill : ℚ) - (fs : ℚ) * 0.6))

end Var4

namespace Months

/- src/app/api/days/route.tsx, second document: the AEST month-grid
(calendar) variant. -/

/-- Same leap-year formula as every other variant. -/
def isLeapYear (y : Int) : Bool :=
  (Int.tmod y 4 == 0 && Int.tmod y 100 != 0) || Int.tmod y 400 == 0

/-- `const totalDays = isLeapYear(year) ? 366 : 365`. -/
def totalDays (y : Int) : Int := if isLeapYear y then 366 else 365

/-- The `monthNames` array. -/
def monthNames : List String :=
  ["Jan", "Feb", "Mar", "Apr", "May", "Jun", "Jul", "Aug", "Sep", "Oct", "Nov", "Dec"]

/-- The `monthLengths` array: `[31, isLeapYear(year) ? 29 : 28, 31, 30, ...]`. -/
def monthLengths (y : Int) : List Nat :=
  [31, if isLeapYear y then 29 else 28, 31, 30, 31, 30, 31, 31, 30, 31, 30, 31]

/-- The color the month grid assigns to `absoluteDay`: past days white, the
current day green, future days dark gray. -/
def dotColor (absoluteDay doy : Int) : String :=
  if absoluteDay < doy then "#ffffff"
  else if absoluteDay = doy then "#16a34a"
  else "#333333"

/-- One month block: its label and its day colors. -/
structure MonthData where
  name : String
  days : List String
  deriving DecidableEq

/-- The `monthLengths.map` body with its mutable `dayCounter` made explicit:
each month's days are `absoluteDay = dayCounter + i` for `i < daysInMonth`,
and the counter advances by the month's length. -/
def monthsDataAux (doy : Int) : Int → List (String × Nat) → List MonthData
  | _, [] => []
  | dayCounter, (nm, daysInMonth) :: rest =>
    { name := nm,
      days := (List.range daysInMonth).map fun (i : Nat) => dotColor (dayCounter + (i : Int)) doy }
      :: monthsDataAux doy (dayCounter + (daysInMonth : Int)) rest

/-- `monthsData`: the twelve month blocks, `dayCounter` starting at 1. -/
def monthsData (y doy : Int) : List MonthData :=
  monthsDataAux doy 1 (monthNames.zip (monthLengths y))

end Months

/-- The spec's rounding rule, for comparison with the code's `Math.round`:
round half away from zero. -/
def specRoundHalfAway (q : ℚ) : Int :=
  if 0 ≤ q then ⌊q + 1 / 2⌋ else -⌊-q + 1 / 2⌋

/- ======================  helper lemmas  ====================== -/

/-- Every variant's `totalDays` is 365 or 366. -/
lemma totalDays_cases (y : Int) : Days.totalDays y = 365 ∨ Days.totalDays y = 366 := by
  unfold Days.totalDays
  split <;> simp

/-- `totalDays` is positive. -/
lemma totalDays_pos (y : Int) : 0 < Days.totalDays y := by
  rcases totalDays_cases y with h | h <;> omega

lemma jsRound_nonneg {q : ℚ} (h : 0 ≤ q) : 0 ≤ jsRound q := by
  unfold jsRound
  exact Int.le_floor.mpr (by push_cast; linarith)

lemma jsRound_le {q : ℚ} {b : Int} (h : q ≤ (b : ℚ)) : jsRound q ≤ b := by
  unfold jsRound
  have hlt : ⌊q + 1 / 2⌋ < b + 1 := Int.floor_lt.mpr (by push_cast; linarith)
  omega

/-- Bounds of the rounded percentage for a day inside the year. -/
lemma percentage_bounds {doy td : Int} (h1 : 1 ≤ doy) (h2 : doy ≤ td) (h3 : 0 < td) :
    0 ≤ jsRound ((doy : ℚ) / (td : ℚ) * 100) ∧ jsRound ((doy : ℚ) / (td : ℚ) * 100) ≤ 100 := by
  have htd : (0 : ℚ) < (td : ℚ) := by exact_mod_cast h3
  have hd0 : (0 : ℚ) ≤ (doy : ℚ) := by exact_mod_cast le_trans (by norm_num) h1
  have hq0 : (0 : ℚ) ≤ (doy : ℚ) / (td : ℚ) * 100 := by positivity
  have hq1 : (doy : ℚ) / (td : ℚ) * 100 ≤ 100 := by
    have hd : (doy : ℚ) ≤ (td : ℚ) := by exact_mod_cast h2
    have hr : (doy : ℚ) / (td : ℚ) ≤ 1 := (div_le_one htd).mpr hd
    nlinarith
  exact ⟨jsRound_nonneg hq0, jsRound_le (by push_cast; linarith)⟩

/- ======================  C3  ====================== -/

/-- C3: for every year `Y`, `totalDays Y = 366` exactly when
`Y % 4 == 0 && (Y % 100 != 0 || Y % 400 == 0)` (JS truncating `%`), and
`totalDays Y = 365` otherwise; every variant computes `totalDays` from the
same leap-year rule. -/
theorem claim_C3 (Y : Int) :
    (Days.totalDays Y = 366 ↔
      (Int.tmod Y 4 = 0 ∧ (Int.tmod Y 100 ≠ 0 ∨ Int.tmod Y 400 = 0)))
    ∧ (Days.totalDays Y = 366 ∨ Days.totalDays Y = 365)
    ∧ Days.isLeapYear = Canvas.isLeapYear
    ∧ Days.isLeapYear = Var4.isLeapYear
    ∧ Days.isLeapYear = Months.isLeapYear
    ∧ Days.totalDays Y = Canvas.totalDays Y
    ∧ Days.totalDays Y = Var4.totalDays Y
    ∧ Days.totalDays Y = Months.totalDays Y := by
  refine ⟨?_, (totalDays_cases Y).symm, rfl, rfl, rfl, rfl, rfl, rfl⟩
  have h400 : Int.tmod Y 400 = 0 → Int.tmod Y 4 = 0 := by
    intro h
    have h4 : (4 : Int) ∣ Y :=
      dvd_trans (by norm_num) (Int.dvd_of_tmod_eq_zero h)
    exact Int.tmod_eq_zero_of_dvd h4
  have hleap : Days.isLeapYear Y = true ↔
      (Int.tmod Y 4 = 0 ∧ (Int.tmod Y 100 ≠ 0 ∨ Int.tmod Y 400 = 0)) := by
    unfold Days.isLeapYear
    simp only [Bool.or_eq_true, Bool.and_eq_true, beq_iff_eq, bne_iff_ne]
    constructor
    · rintro (⟨h1, h2⟩ | h1)
      · exact ⟨h1, Or.inl h2⟩
      · exact ⟨h400 h1, Or.inr h1⟩
    · rintro ⟨h1, h2 | h2⟩
      · exact Or.inl ⟨h1, h2⟩
      · exact Or.inr h2
  rw [← hleap]
  unfold Days.totalDays
  split <;> simp_all

/- ======================  C2  ====================== -/

/-- C2 counterexample: a malformed (non-numeric) `width`/`height` parameter
does not fall back to the defaults — `parseInt` yields NaN (`none`); and a
parameter with a numeric prefix yields that number rather than a default. -/
theorem claim_C2_counterexample :
    Params.widthParam (some "abc") = none
    ∧ Params.heightParam (some "abc") = none
    ∧ Params.widthParam (some "abc") ≠ some 1170
    ∧ Params.heightParam (some "abc") ≠ some 2532
    ∧ Params.widthParam (some "banana") ≠ some 1170
    ∧ Params.widthParam (some "99xyz") = some 99 := by decide

/-- C2 amended: only a missing or empty `width`/`height` parameter falls
back to the documented defaults 1170×2532; a non-numeric parameter instead
produces NaN and a numeric-prefixed string produces that number. -/
theorem claim_C2_amended (qw qh : Option String)
    (hw : qw = none ∨ qw = some "") (hh : qh = none ∨ qh = some "") :
    Params.widthParam qw = some 1170 ∧ Params.heightParam qh = some 2532 := by
  rcases hw with rfl | rfl <;> rcases hh with rfl | rfl <;> exact ⟨by decide, by decide⟩

theorem claim_C2_amended_witness :
    Params.widthParam none = some 1170 ∧ Params.heightParam none = some 2532 :=
  claim_C2_amended none none (Or.inl rfl) (Or.inl rfl)

/- ======================  C4  ====================== -/

/-- C4: for a day of year in `[1, totalDays]`, `daysLeft` is exactly
`totalDays - dayOfYear` (so `dayOfYear + daysLeft = totalDays`) and the
rounded percentage lies in `[0, 100]`, in both the days and var-4
variants. -/
theorem claim_C4 (y doy : Int) (h1 : 1 ≤ doy) (h2 : doy ≤ Days.totalDays y) :
    Days.daysLeft y doy = Days.totalDays y - doy
    ∧ doy + Days.daysLeft y doy = Days.totalDays y
    ∧ 0 ≤ Days.percentage doy (Days.totalDays y)
    ∧ Days.percentage doy (Days.totalDays y) ≤ 100
    ∧ Var4.daysLeft y doy = Var4.totalDays y - doy
    ∧ doy + Var4.daysLeft y doy = Var4.totalDays y
    ∧ 0 ≤ Var4.percentage doy (Var4.totalDays y)
    ∧ Var4.percentage doy (Var4.totalDays y) ≤ 100 := by
  have hb := percentage_bounds h1 h2 (totalDays_pos y)
  refine ⟨rfl, ?_, hb.1, hb.2, rfl, ?_, hb.1, hb.2⟩
  · unfold Days.daysLeft; ring
  · unfold Var4.daysLeft Var4.totalDays; ring

theorem claim_C4_witness :
    Days.daysLeft 2024 100 = Days.totalDays 2024 - 100
    ∧ 100 + Days.daysLeft 2024 100 = Days.totalDays 2024
    ∧ 0 ≤ Days.percentage 100 (Days.totalDays 2024)
    ∧ Days.percentage 100 (Days.totalDays 2024) ≤ 100
    ∧ Var4.daysLeft 2024 100 = Var4.totalDays 2024 - 100
    ∧ 100 + Var4.daysLeft 2024 100 = Var4.totalDays 2024
    ∧ 0 ≤ Var4.percentage 100 (Var4.totalDays 2024)
    ∧ Var4.percentage 100 (Var4.totalDays 2024) ≤ 100 :=
  claim_C4 2024 100 (by decide) (by decide)

/- ======================  C5  ====================== -/

/-- C5: for a day of year in `[1, totalDays]` the code's
`Math.round((dayOfYear / totalDays) * 100)` agrees with the spec's rounding
rule, half away from zero (the argument is nonnegative there, where the two
rules coincide; no exact tie can occur since `200 * doy / td` is never an
odd integer for `td ∈ {365, 366}`). -/
theorem claim_C5 (y doy : Int) (h1 : 1 ≤ doy) (_h2 : doy ≤ Days.totalDays y) :
    Days.percentage doy (Days.totalDays y)
      = specRoundHalfAway ((doy : ℚ) / ((Days.totalDays y : Int) : ℚ) * 100)
    ∧ Var4.percentage doy (Var4.totalDays y)
      = specRoundHalfAway ((doy : ℚ) / ((Var4.totalDays y : Int) : ℚ) * 100) := by
  have htd : (0 : ℚ) < ((Days.totalDays y : Int) : ℚ) := by
    exact_mod_cast totalDays_pos y
  have hd0 : (0 : ℚ) ≤ (doy : ℚ) := by exact_mod_cast le_trans (by norm_num) h1
  have hq0 : (0 : ℚ) ≤ (doy : ℚ) / ((Days.totalDays y : Int) : ℚ) * 100 := by positivity
  have hq0' : (0 : ℚ) ≤ (doy : ℚ) / ((Var4.totalDays y : Int) : ℚ) * 100 := hq0
  constructor
  · unfold Days.percentage specRoundHalfAway jsRound
    rw [if_pos hq0]
  · unfold Var4.percentage specRoundHalfAway jsRound
    rw [if_pos hq0']

theorem claim_C5_witness :
    Days.percentage 100 (Days.totalDays 2024)
      = specRoundHalfAway ((100 : ℚ) / ((Days.totalDays 2024 : Int) : ℚ) * 100)
    ∧ Var4.percentage 100 (Var4.totalDays 2024)
      = specRoundHalfAway ((100 : ℚ) / ((Var4.totalDays 2024 : Int) : ℚ) * 100) :=
  claim_C5 2024 100 (by decide) (by decide)

/- ======================  C1  ====================== -/

/-- C1 counterexample: the days and canvas variants compute `dayOfYear` by
raw instant-minus-midnight subtraction, and under a daylight-saving
timezone that drifts.  At 2024-03-11T04:30Z (= 00:30 local in
America/New_York, the Monday after the spring-forward transition), with
`startOfYear` the local-midnight instant of Jan 1 (certified by the third
conjunct: its local wall clock is exactly the start of epoch day 19723 =
2024-01-01), the code yields 70 while the 1-based ordinal of the resolved
local date (2024-03-11, certified to lie in 2024 by the last two
conjuncts) is 71. -/
theorem claim_C1_counterexample :
    Days.dayOfYear 1710131400000 1704085200000 = 70
    ∧ Canvas.dayOfYear 1710131400000 1704085200000 = 70
    ∧ Calendar.localOrdinal Calendar.nyOffset2024 1710131400000 2024 = 71
    ∧ 1704085200000 + Calendar.nyOffset2024 1704085200000
        = Calendar.epochDay 2024 1 1 * 86400000
    ∧ Calendar.epochDay 2024 1 1
        ≤ Calendar.localEpochDay Calendar.nyOffset2024 1710131400000
    ∧ Calendar.localEpochDay Calendar.nyOffset2024 1710131400000
        < Calendar.epochDay 2025 1 1
    ∧ (70 : Int) ≠ 71 := by decide

/-- C1 amended: the timezone-fixed variants compute `dayOfYear` as
`floor((Date.UTC(y,m,d) - Date.UTC(y,1,1)) / 86400000) + 1`, both
boundaries midnights of the resolved calendar, and this equals the 1-based
ordinal of the resolved date for every valid month; the local-timezone
variants instead use the raw current instant, which agrees with the
ordinal only while the UTC offset equals the one of the Jan-1 midnight
used (a constant-offset timezone), and can drift by one across
daylight-saving shifts. -/
theorem claim_C1_amended :
    (∀ (y : Int) (m : Nat) (d : Int), 1 ≤ m → m ≤ 12 →
        Var4.dayOfYear y m d = Calendar.ordinalDate y m d)
    ∧ (∀ (c nowMs startOfYearMs y : Int),
        startOfYearMs + c = Calendar.epochDay y 1 1 * 86400000 →
        Days.dayOfYear nowMs startOfYearMs
          = Calendar.localOrdinal (fun _ => c) nowMs y) := by
  constructor
  · intro y m d hm _
    unfold Var4.dayOfYear Calendar.dateUTC Calendar.ordinalDate
    rw [Nat.sub_add_cancel hm, show (0 : Nat) + 1 = 1 from rfl]
    have hb1 : Calendar.daysBeforeMonth y 1 = 0 := rfl
    have h1 : Calendar.epochDay y m d - Calendar.epochDay y 1 1
        = Calendar.daysBeforeMonth y m + d - 1 := by
      unfold Calendar.epochDay
      rw [hb1]
      ring
    rw [← sub_mul, h1, Int.mul_ediv_cancel _ (by norm_num)]
    ring
  · intro c nowMs startOfYearMs y h
    unfold Days.dayOfYear Calendar.localOrdinal Calendar.localEpochDay
    have hs : nowMs - startOfYearMs
        = (nowMs + c) + (-(Calendar.epochDay y 1 1)) * 86400000 := by
      rw [neg_mul]
      omega
    rw [hs, Int.add_mul_ediv_right _ _ (by norm_num : (86400000 : Int) ≠ 0)]
    ring

theorem claim_C1_amended_witness :
    Var4.dayOfYear 2024 3 11 = Calendar.ordinalDate 2024 3 11
    ∧ Days.dayOfYear 1709876543210 1704085200000
        = Calendar.localOrdinal (fun _ => -18000000) 1709876543210 2024 :=
  ⟨claim_C1_amended.1 2024 3 11 (by decide) (by decide),
   claim_C1_amended.2 (-18000000) 1709876543210 1704085200000 2024 (by decide)⟩

/- ======================  C9  ====================== -/

/-- C9 counterexample: in the canvas variant — the one variant that places
the grid through an explicit `startX` — `gridWidth` is the dot-center span
`(cols-1)*spacingX` with no cell-size term, so the spec's equation
`startX + ((columns-1)*spacingX + cellSize) + startX = width` fails at
width 1170 and height 2532: the left side overshoots by the cell size
(2·dotRadius = 41.184 px, far beyond rounding tolerance; reading
`cellSize` as the radius it still overshoots by 20.592 px). -/
theorem claim_C9_counterexample :
    Canvas.startX 1170 + Canvas.specGridWidth 1170 2532 25 + Canvas.startX 1170 ≠ 1170
    ∧ Canvas.startX 1170 + Canvas.specGridWidthR 1170 2532 25 + Canvas.startX 1170 ≠ 1170
    ∧ Canvas.startX 1170 + Canvas.specGridWidth 1170 2532 25 + Canvas.startX 1170 - 1170
        = 2 * Canvas.dotRadius 1170 2532 25
    ∧ Canvas.dotRadius 1170 2532 25 = 2574 / 125 := by
  norm_num [Canvas.startX, Canvas.specGridWidth, Canvas.specGridWidthR, Canvas.gridWidth,
    Canvas.dotRadius, Canvas.spacingX, Canvas.spacingY, Canvas.availableWidth,
    Canvas.availableHeight, Canvas.topPadding, Canvas.bottomTextSpace, Canvas.sideMargin,
    min_def]

/-- C9 amended: the grid is horizontally centered on the dot-center span:
`startX = (width - gridWidth)/2` with the code's
`gridWidth = (columns-1)*spacingX` (no cell-size term), and
`startX + gridWidth + startX = width` holds exactly for every positive
width. -/
theorem claim_C9_amended (w : ℚ) (_hw : 0 < w) :
    Canvas.startX w + Canvas.gridWidth w + Canvas.startX w = w
    ∧ Canvas.startX w = (w - Canvas.gridWidth w) / 2 := by
  refine ⟨?_, rfl⟩
  unfold Canvas.startX
  ring

theorem claim_C9_amended_witness :
    Canvas.startX 1170 + Canvas.gridWidth 1170 + Canvas.startX 1170 = 1170
    ∧ Canvas.startX 1170 = (1170 - Canvas.gridWidth 1170) / 2 :=
  claim_C9_amended 1170 (by norm_num)

/- ======================  C10  ====================== -/

/-- C10: in the progress-bar variant, for any percentage in `[0, 100]` and
any nonnegative grid width, the fill width is
`Math.round(progressBarWidth * percentage / 100)`, lies in
`[0, progressBarWidth]`, is empty at 0 and full at 100, and the label
offset is clamped to be nonnegative. -/
theorem claim_C10 (gw : ℚ) (p fs : Int) (hgw : 0 ≤ gw) (hp0 : 0 ≤ p) (hp1 : p ≤ 100) :
    0 ≤ Var4.progressBarWidth gw
    ∧ Var4.progressFillWidth (Var4.progressBarWidth gw) p
        = jsRound (((Var4.progressBarWidth gw : Int) : ℚ) * (p : ℚ) / 100)
    ∧ 0 ≤ Var4.progressFillWidth (Var4.progressBarWidth gw) p
    ∧ Var4.progressFillWidth (Var4.progressBarWidth gw) p ≤ Var4.progressBarWidth gw
    ∧ (p = 0 → Var4.progressFillWidth (Var4.progressBarWidth gw) p = 0)
    ∧ (p = 100 → Var4.progressFillWidth (Var4.progressBarWidth gw) p
        = Var4.progressBarWidth gw)
    ∧ 0 ≤ Var4.progressLabelOffset (Var4.progressBarWidth gw)
        (Var4.progressFillWidth (Var4.progressBarWidth gw) p) fs := by
  have hpbw : 0 ≤ Var4.progressBarWidth gw := by
    unfold Var4.progressBarWidth
    exact Int.le_floor.mpr (by push_cast; nlinarith)
  set pbw := Var4.progressBarWidth gw with hdef
  have hpbwQ : (0 : ℚ) ≤ (pbw : ℚ) := by exact_mod_cast hpbw
  have hpQ : (0 : ℚ) ≤ (p : ℚ) := by exact_mod_cast hp0
  have hp100 : (p : ℚ) ≤ 100 := by exact_mod_cast hp1
  have hx0 : (0 : ℚ) ≤ (pbw : ℚ) * (p : ℚ) / 100 := by positivity
  have hx1 : (pbw : ℚ) * (p : ℚ) / 100 ≤ (pbw : ℚ) := by
    rw [div_le_iff₀ (by norm_num : (0 : ℚ) < 100)]
    nlinarith
  refine ⟨hpbw, rfl, jsRound_nonneg hx0, jsRound_le hx1, ?_, ?_, le_max_left 0 _⟩
  · rintro rfl
    unfold Var4.progressFillWidth jsRound
    norm_num
  · rintro rfl
    unfold Var4.progressFillWidth jsRound
    have h100 : (pbw : ℚ) * (100 : Int) / 100 = ((pbw : Int) : ℚ) := by
      push_cast
      ring
    rw [h100, Int.floor_int_add]
    norm_num

theorem claim_C10_witness :
    0 ≤ Var4.progressBarWidth 752
    ∧ Var4.progressFillWidth (Var4.progressBarWidth 752) 27
        = jsRound (((Var4.progressBarWidth 752 : Int) : ℚ) * ((27 : Int) : ℚ) / 100)
    ∧ 0 ≤ Var4.progressFillWidth (Var4.progressBarWidth 752) 27
    ∧ Var4.progressFillWidth (Var4.progressBarWidth 752) 27 ≤ Var4.progressBarWidth 752
    ∧ ((27 : Int) = 0 → Var4.progressFillWidth (Var4.progressBarWidth 752) 27 = 0)
    ∧ ((27 : Int) = 100 → Var4.progressFillWidth (Var4.progressBarWidth 752) 27
        = Var4.progressBarWidth 752)
    ∧ 0 ≤ Var4.progressLabelOffset (Var4.progressBarWidth 752)
        (Var4.progressFillWidth (Var4.progressBarWidth 752) 27) 36 :=
  claim_C10 752 27 36 (by norm_num) (by decide) (by decide)

/- ======================  grid helper lemmas  ====================== -/

/-- The row loop's guarded pushes build a contiguous slice of the dot
list: indices `s, s+1, ...` for as long as they stay below the length. -/
lemma filterMap_slice {α : Type} (d : α) :
    ∀ (n s : Nat) (l : List α),
      ((List.range n).filterMap fun c =>
        if s + c < l.length then some (l.getD (s + c) d) else none)
      = (l.drop s).take n := by
  intro n
  induction n with
  | zero => intro s l; simp
  | succ n ih =>
    intro s l
    rw [List.range_succ_eq_map, List.filterMap_cons, List.filterMap_map]
    have hfe : ((fun c => if s + c < l.length then some (l.getD (s + c) d) else none) ∘ Nat.succ)
        = fun c => if (s + 1) + c < l.length then some (l.getD ((s + 1) + c) d) else none := by
      funext c
      simp only [Function.comp_apply]
      have h : s + (c + 1) = (s + 1) + c := by omega
      rw [show s + Nat.succ c = s + (c + 1) from rfl, h]
    rw [hfe, ih]
    by_cases hs : s < l.length
    · have hf : (if s + 0 < l.length then some (l.getD (s + 0) d) else none)
          = some (l.getD s d) := by simp [hs]
      simp only [hf]
      rw [List.drop_eq_getElem_cons hs, List.take_succ_cons, List.getD_eq_getElem l d hs]
    · have hf : (if s + 0 < l.length then some (l.getD (s + 0) d) else none) = none := by
        simp [hs]
      simp only [hf]
      rw [List.drop_eq_nil_of_le (by omega), List.drop_eq_nil_of_le (by omega),
        List.take_nil, List.take_nil]

/-- Each grid row is a slice of the dot list. -/
lemma rowDots_eq (l : List String) (td r : Nat) (h : l.length = td) :
    Days.rowDots l td r
      = (l.drop (r * 15)).take (if r < 24 then 15 else Days.extraDots td) := by
  subst h
  unfold Days.rowDots Days.cols Days.gridRows
  exact filterMap_slice "" _ _ l

/-- Concatenating `k` full slices of 15 recovers the first `k*15` dots. -/
lemma flatten_full_rows {α : Type} (l : List α) :
    ∀ k : Nat, ((List.range k).map fun r => (l.drop (r * 15)).take 15).flatten
      = l.take (k * 15) := by
  intro k
  induction k with
  | zero => simp
  | succ k ih =>
    rw [List.range_succ, List.map_append, List.flatten_append, ih]
    simp only [List.map_cons, List.map_nil, List.flatten_cons, List.flatten_nil,
      List.append_nil]
    rw [show (k + 1) * 15 = k * 15 + 15 from by ring, List.take_add]

/-- For a dot list longer than the 15×24 block, `totalRows` is 25. -/
lemma totalRows_eq (td : Nat) (h : 360 < td) : Days.totalRows td = 25 := by
  unfold Days.totalRows Days.extraDots Days.cols Days.gridRows
  rw [if_pos (by omega)]

/-- The grid rows concatenate back to exactly the dot list. -/
lemma dotRows_flatten (l : List String) (td : Nat) (h : l.length = td)
    (h2 : 360 < td) :
    (Days.dotRows l td).flatten = l := by
  unfold Days.dotRows
  rw [totalRows_eq td h2]
  rw [show (25 : Nat) = 24 + 1 from rfl, List.range_succ, List.map_append,
    List.flatten_append]
  have hfull : ((List.range 24).map fun r => Days.rowDots l td r)
      = (List.range 24).map fun r => (l.drop (r * 15)).take 15 := by
    apply List.map_congr_left
    intro r hr
    rw [rowDots_eq l td r h, if_pos (List.mem_range.mp hr)]
  rw [hfull, flatten_full_rows]
  have hlast : Days.rowDots l td 24 = l.drop 360 := by
    rw [rowDots_eq l td 24 h, if_neg (by omega)]
    apply List.take_of_length_le
    rw [List.length_drop]
    unfold Days.extraDots Days.cols Days.gridRows
    omega
  simp only [List.map_cons, List.map_nil, List.flatten_cons, List.flatten_nil,
    List.append_nil, hlast]
  exact List.take_append_drop 360 l

/-- The grid rows' lengths: 24 full rows of 15 and one final partial row of
`extraDots` cells. -/
lemma dotRows_lengths (l : List String) (td : Nat) (h : l.length = td)
    (h2 : 360 < td) :
    (Days.dotRows l td).map List.length
      = List.replicate 24 15 ++ [Days.extraDots td] := by
  unfold Days.dotRows
  rw [totalRows_eq td h2, List.map_map]
  rw [show (25 : Nat) = 24 + 1 from rfl, List.range_succ, List.map_append]
  have hA : (List.range 24).map (List.length ∘ fun r => Days.rowDots l td r)
      = List.replicate 24 15 := by
    rw [List.eq_replicate_iff]
    constructor
    · rw [List.length_map, List.length_range]
    · intro b hb
      obtain ⟨r, hr, hbr⟩ := List.mem_map.mp hb
      have hr24 : r < 24 := List.mem_range.mp hr
      rw [← hbr]
      simp only [Function.comp_apply]
      rw [rowDots_eq l td r h, if_pos hr24, List.length_take, List.length_drop, h]
      omega
  have hB : [24].map (List.length ∘ fun r => Days.rowDots l td r)
      = [Days.extraDots td] := by
    simp only [List.map_cons, List.map_nil, Function.comp_apply]
    rw [rowDots_eq l td 24 h, if_neg (by omega), List.length_take, List.length_drop, h]
    refine congrArg (fun n => [n]) ?_
    unfold Days.extraDots Days.cols Days.gridRows
    omega
  rw [hA, hB]

/-- The dot list has one entry per day. -/
lemma dots_length (doy : Int) (td : Nat) : (Days.dots doy td).length = td := by
  unfold Days.dots
  rw [List.length_map, List.length_range]

/-- `totalDays` back in `Nat`. -/
lemma totalDays_toNat (y : Int) : ((Days.totalDays y).toNat : Int) = Days.totalDays y :=
  Int.toNat_of_nonneg (le_of_lt (totalDays_pos y))

lemma totalDays_toNat_gt (y : Int) : 360 < (Days.totalDays y).toNat := by
  rcases totalDays_cases y with h | h <;> rw [h] <;> decide

/- ======================  C7  ====================== -/

/-- C7: the flat grid uses `extraCells = max(totalDays - 15*24, 0)` and
`totalRows = 24 + 1` (for both possible `totalDays`); its rows partition
exactly the `totalDays` dots, 24 full rows of 15 and a final left-packed
partial row of `extraCells` cells; in particular for the leap year 2024,
`totalDays = 366`, the grid is 15 columns by 25 rows with a partial row of
6 cells. -/
theorem claim_C7 (y doy : Int) :
    (∀ td : Nat, (Days.extraDots td : Int) = max ((td : Int) - 15 * 24) 0)
    ∧ Days.totalRows (Days.totalDays y).toNat = 25
    ∧ (Days.dotRows (Days.dots doy (Days.totalDays y).toNat)
        (Days.totalDays y).toNat).map List.length
      = List.replicate 24 15 ++ [Days.extraDots (Days.totalDays y).toNat]
    ∧ (Days.dotRows (Days.dots doy (Days.totalDays y).toNat)
        (Days.totalDays y).toNat).flatten
      = Days.dots doy (Days.totalDays y).toNat
    ∧ Days.cols = 15
    ∧ Days.totalDays 2024 = 366
    ∧ Days.extraDots 366 = 6
    ∧ Days.totalRows 366 = 25 := by
  refine ⟨?_, totalRows_eq _ (totalDays_toNat_gt y),
    dotRows_lengths _ _ (dots_length doy _) (totalDays_toNat_gt y),
    dotRows_flatten _ _ (dots_length doy _) (totalDays_toNat_gt y),
    rfl, by decide, by decide, by decide⟩
  intro td
  unfold Days.extraDots Days.cols Days.gridRows
  omega

/- ======================  color / month helper lemmas  ====================== -/

/-- The days palette marks exactly the current day orange. -/
lemma days_dotColor_current (doy : Int) :
    ∀ n : Int, Days.dotColor n doy = "#ff8c00" ↔ n = doy := by
  intro n
  unfold Days.dotColor
  split_ifs with h1 h2
  · exact iff_of_false (by decide) (by omega)
  · exact iff_of_true rfl h2
  · exact iff_of_false (by decide) h2

/-- The month palette marks exactly the current day green. -/
lemma months_dotColor_current (doy : Int) :
    ∀ n : Int, Months.dotColor n doy = "#16a34a" ↔ n = doy := by
  intro n
  unfold Months.dotColor
  split_ifs with h1 h2
  · exact iff_of_false (by decide) (by omega)
  · exact iff_of_true rfl h2
  · exact iff_of_false (by decide) h2

/-- Counting one marked color over the day sequence `1..n`: one hit when
the marked day lies in range, none otherwise. -/
lemma count_current (f : Int → String) (cur : String) (doy : Int)
    (hf : ∀ n : Int, f n = cur ↔ n = doy) :
    ∀ n : Nat, ((List.range n).map fun (i : Nat) => f ((i : Int) + 1)).count cur
      = if 1 ≤ doy ∧ doy ≤ (n : Int) then 1 else 0 := by
  intro n
  induction n with
  | zero =>
    have h0 : ¬(1 ≤ doy ∧ doy ≤ ((0 : Nat) : Int)) := by push_cast; omega
    rw [List.range_zero, List.map_nil, List.count_nil, if_neg h0]
  | succ n ih =>
    rw [List.range_succ, List.map_append, List.count_append, ih]
    simp only [List.map_cons, List.map_nil, List.count_cons, List.count_nil, beq_iff_eq]
    simp only [hf]
    push_cast
    split_ifs <;> omega

/-- The month blocks' day lists concatenate to the whole day sequence in
calendar order. -/
lemma monthsDataAux_flatten (doy : Int) :
    ∀ (ps : List (String × Nat)) (start : Int),
      ((Months.monthsDataAux doy start ps).map Months.MonthData.days).flatten
        = (List.range (ps.map Prod.snd).sum).map
            fun (i : Nat) => Months.dotColor (start + (i : Int)) doy := by
  intro ps
  induction ps with
  | nil =>
    intro start
    simp [Months.monthsDataAux]
  | cons p rest ih =>
    intro start
    obtain ⟨nm, len⟩ := p
    simp only [Months.monthsDataAux, List.map_cons, List.flatten_cons, List.sum_cons]
    rw [List.range_add, List.map_append, List.map_map, ih (start + (len : Int))]
    have htail : (List.range (rest.map Prod.snd).sum).map
          ((fun (i : Nat) => Months.dotColor (start + (i : Int)) doy) ∘ fun x => len + x)
        = (List.range (rest.map Prod.snd).sum).map
            fun (i : Nat) => Months.dotColor (start + (len : Int) + (i : Int)) doy := by
      apply List.map_congr_left
      intro i _
      simp only [Function.comp_apply]
      refine congrArg (fun z => Months.dotColor z doy) ?_
      push_cast
      ring
    rw [htail]

/-- The zipped names/lengths list projects back onto the lengths. -/
lemma monthNamesLengths_snd (y : Int) :
    (Months.monthNames.zip (Months.monthLengths y)).map Prod.snd
      = Months.monthLengths y := rfl

/-- The zipped names/lengths list projects back onto the names. -/
lemma monthNamesLengths_fst (y : Int) :
    (Months.monthNames.zip (Months.monthLengths y)).map Prod.fst
      = Months.monthNames := rfl

/-- The month lengths sum to the year's day count. -/
lemma monthLengths_sum (y : Int) :
    (Months.monthLengths y).sum = (Months.totalDays y).toNat := by
  unfold Months.monthLengths Months.totalDays
  by_cases h : Months.isLeapYear y = true
  · rw [if_pos h, if_pos h]
    decide
  · rw [if_neg h, if_neg h]
    decide

/-- The flattened month grid is the whole day sequence `1..totalDays`. -/
lemma monthsData_flatten (y doy : Int) :
    ((Months.monthsData y doy).map Months.MonthData.days).flatten
      = (List.range (Months.totalDays y).toNat).map
          fun (i : Nat) => Months.dotColor (1 + (i : Int)) doy := by
  unfold Months.monthsData
  rw [monthsDataAux_flatten doy _ 1, monthNamesLengths_snd, monthLengths_sum]

/-- The month blocks carry the month names in calendar order. -/
lemma monthsDataAux_names (doy : Int) :
    ∀ (ps : List (String × Nat)) (start : Int),
      (Months.monthsDataAux doy start ps).map Months.MonthData.name
        = ps.map Prod.fst := by
  intro ps
  induction ps with
  | nil =>
    intro start
    simp [Months.monthsDataAux]
  | cons p rest ih =>
    intro start
    obtain ⟨nm, len⟩ := p
    simp only [Months.monthsDataAux, List.map_cons]
    rw [ih]

/-- Each month block holds exactly its month's number of days. -/
lemma monthsDataAux_days_lengths (doy : Int) :
    ∀ (ps : List (String × Nat)) (start : Int),
      (Months.monthsDataAux doy start ps).map (fun b => b.days.length)
        = ps.map Prod.snd := by
  intro ps
  induction ps with
  | nil =>
    intro start
    simp [Months.monthsDataAux]
  | cons p rest ih =>
    intro start
    obtain ⟨nm, len⟩ := p
    simp only [Months.monthsDataAux, List.map_cons]
    rw [ih, List.length_map, List.length_range]

/- ======================  C8  ====================== -/

/-- C8: the month-grid variant splits the day sequence into 12 contiguous
runs sized by the standard month lengths (with February 28/29 by leap
year): the lengths list is exactly the standard one, sums to `totalDays`
(365 or 366), the blocks carry the month names in calendar order, each
block holds its month's number of days, and the concatenation of the
blocks' days is the flat day sequence `1..totalDays` in order. -/
theorem claim_C8 (y doy : Int) :
    Months.monthLengths y
      = [31, if Months.isLeapYear y then 29 else 28, 31, 30, 31, 30, 31, 31, 30, 31, 30, 31]
    ∧ (Months.monthLengths y).length = 12
    ∧ (Months.monthLengths y).sum = (Months.totalDays y).toNat
    ∧ ((Months.totalDays y).toNat = 365 ∨ (Months.totalDays y).toNat = 366)
    ∧ (Months.monthsData y doy).map Months.MonthData.name = Months.monthNames
    ∧ (Months.monthsData y doy).map (fun b => b.days.length) = Months.monthLengths y
    ∧ ((Months.monthsData y doy).map Months.MonthData.days).flatten
        = (List.range (Months.totalDays y).toNat).map
            fun (i : Nat) => Months.dotColor (1 + (i : Int)) doy := by
  refine ⟨rfl, rfl, monthLengths_sum y, ?_, ?_, ?_, monthsData_flatten y doy⟩
  · rcases totalDays_cases y with h | h
    · exact Or.inl (by rw [show Months.totalDays y = Days.totalDays y from rfl, h]; rfl)
    · exact Or.inr (by rw [show Months.totalDays y = Days.totalDays y from rfl, h]; rfl)
  · unfold Months.monthsData
    rw [monthsDataAux_names doy _ 1, monthNamesLengths_fst]
  · unfold Months.monthsData
    rw [monthsDataAux_days_lengths doy _ 1, monthNamesLengths_snd]

/- ======================  C6  ====================== -/

/-- C6: whenever `1 ≤ dayOfYear ≤ totalDays`, exactly one cell is colored
with the current-day color — in the flat dot list, in the flattened grid
rows, and in the flattened month grid — and every cell before the current
day gets the past color while every cell after it gets the future color,
in both palettes. -/
theorem claim_C6 (y doy : Int) (h1 : 1 ≤ doy) (h2 : doy ≤ Days.totalDays y) :
    (Days.dots doy (Days.totalDays y).toNat).count "#ff8c00" = 1
    ∧ ((Days.dotRows (Days.dots doy (Days.totalDays y).toNat)
        (Days.totalDays y).toNat).flatten).count "#ff8c00" = 1
    ∧ (((Months.monthsData y doy).map Months.MonthData.days).flatten).count "#16a34a" = 1
    ∧ (∀ n : Int, n < doy → Days.dotColor n doy = "#ffffff")
    ∧ Days.dotColor doy doy = "#ff8c00"
    ∧ (∀ n : Int, doy < n → Days.dotColor n doy = "#333333")
    ∧ (∀ n : Int, n < doy → Months.dotColor n doy = "#ffffff")
    ∧ Months.dotColor doy doy = "#16a34a"
    ∧ (∀ n : Int, doy < n → Months.dotColor n doy = "#333333") := by
  have htd : doy ≤ ((Days.totalDays y).toNat : Int) := by
    rw [totalDays_toNat]
    exact h2
  have hcount : (Days.dots doy (Days.totalDays y).toNat).count "#ff8c00" = 1 := by
    have h := count_current (fun n => Days.dotColor n doy) "#ff8c00" doy
      (days_dotColor_current doy) (Days.totalDays y).toNat
    rw [if_pos ⟨h1, htd⟩] at h
    exact h
  have hmonth : (((Months.monthsData y doy).map Months.MonthData.days).flatten).count
      "#16a34a" = 1 := by
    rw [monthsData_flatten y doy]
    have hcomm : (List.range (Months.totalDays y).toNat).map
          (fun (i : Nat) => Months.dotColor (1 + (i : Int)) doy)
        = (List.range (Months.totalDays y).toNat).map
            fun (i : Nat) => Months.dotColor ((i : Int) + 1) doy := by
      apply List.map_congr_left
      intro i _
      refine congrArg (fun z => Months.dotColor z doy) ?_
      ring
    rw [hcomm]
    have h := count_current (fun n => Months.dotColor n doy) "#16a34a" doy
      (months_dotColor_current doy) (Months.totalDays y).toNat
    rw [if_pos ⟨h1, htd⟩] at h
    exact h
  refine ⟨hcount, ?_, hmonth, ?_, ?_, ?_, ?_, ?_, ?_⟩
  · rw [dotRows_flatten _ _ (dots_length doy _) (totalDays_toNat_gt y)]
    exact hcount
  · intro n hn
    unfold Days.dotColor
    rw [if_pos hn]
  · unfold Days.dotColor
    rw [if_neg (lt_irrefl doy), if_pos rfl]
  · intro n hn
    unfold Days.dotColor
    rw [if_neg (by omega), if_neg (by omega)]
  · intro n hn
    unfold Months.dotColor
    rw [if_pos hn]
  · unfold Months.dotColor
    rw [if_neg (lt_irrefl doy), if_pos rfl]
  · intro n hn
    unfold Months.dotColor
    rw [if_neg (by omega), if_neg (by omega)]

theorem claim_C6_witness :
    (Days.dots 100 (Days.totalDays 2024).toNat).count "#ff8c00" = 1
    ∧ ((Days.dotRows (Days.dots 100 (Days.totalDays 2024).toNat)
        (Days.totalDays 2024).toNat).flatten).count "#ff8c00" = 1
    ∧ (((Months.monthsData 2024 100).map Months.MonthData.days).flatten).count "#16a34a" = 1
    ∧ (∀ n : Int, n < 100 → Days.dotColor n 100 = "#ffffff")
    ∧ Days.dotColor 100 100 = "#ff8c00"
    ∧ (∀ n : Int, (100 : Int) < n → Days.dotColor n 100 = "#333333")
    ∧ (∀ n : Int, n < 100 → Months.dotColor n 100 = "#ffffff")
    ∧ Months.dotColor 100 100 = "#16a34a"
    ∧ (∀ n : Int, (100 : Int) < n → Months.dotColor n 100 = "#333333") :=
  claim_C6 2024 100 (by decide) (by decide)
